import Mathlib

/-!
Shallow embedding of the smart-auto-scaling-system core
(`src/predictor.py`, `src/scaling_engine.py`, `src/resource_manager.py`).

Conventions of the embedding:
* Python floats are modelled as `ℚ` (all arithmetic the claims touch is
  exact decimal arithmetic; no float rounding is load-bearing here).
* Timestamps (`datetime.now().isoformat()`) are modelled as a `ℚ` number of
  seconds passed explicitly as a `now` argument; `time_diff` becomes plain
  subtraction, matching `(current_time - decision_time).total_seconds()`.
* Python dict keys that a code path may find missing are modelled as
  `Option` fields; a `none` access is a `KeyError`, modelled in `Except`.
* The sklearn/pandas feature+model pipeline inside a single prediction step
  of `DemandPredictor.predict_demand` is abstracted as an oracle argument
  (`ModelOracle`): per step it either yields a raw numeric prediction (any
  rational), reports an empty frame after `dropna`, or raises.  The code
  surrounding the oracle (clamping, horizon loop, fallbacks, synthetic
  sample feedback) is translated literally.
* The simulated provisioning / shutdown / maintenance checklist steps in
  `ResourceManager` (prints + sleeps standing in for a provisioning API)
  are modelled by a `StepOracle` that may fail at any step, so that "a
  mid-checklist step fails" is expressible.
* Reason strings are built without the numeric `f`-string interpolation of
  the source (no claim inspects the digits inside a reason).
-/

/-- Last `n` elements of a list, as Python's `xs[-n:]`. -/
def takeLast (n : Nat) (xs : List α) : List α := xs.drop (xs.length - n)

/-! ## Metric samples (`metrics_collector` output consumed by `predictor.py`) -/

/-- One metric sample; only the fields `predictor.py` reads are kept.
`timestamp` is in minutes here because `_create_synthetic_metric` advances
it by `timedelta(minutes=1)`. -/
structure Metric where
  timestamp : ℚ
  cpu_percent : ℚ
  memory_percent : ℚ
  response_time_ms : ℚ
  load_score : ℚ
deriving Repr, DecidableEq, Inhabited

/-- `DemandPredictor._create_synthetic_metric`: synthetic next sample used to
extend the window during multi-step forecasting. -/
def create_synthetic_metric (m : Metric) (predicted_load : ℚ) : Metric :=
  let load_factor := predicted_load / 100
  { timestamp := m.timestamp + 1
    load_score := predicted_load
    cpu_percent := min 100 (load_factor * 80)
    memory_percent := min 100 (load_factor * 70)
    response_time_ms := 50 + load_factor * 150 }

/-- `DemandPredictor._simple_trend_prediction`: trend fallback used when the
whole prediction loop fails. -/
def simple_trend_prediction (recent_metrics : List Metric) (horizon : Nat) : List ℚ :=
  if recent_metrics.length < 2 then
    List.replicate horizon 50
  else
    let loads := (takeLast 10 recent_metrics).map (·.load_score)
    let trend : ℚ :=
      if loads.length > 1 then (loads.getLastD 0 - loads.headD 0) / (loads.length : ℚ) else 0
    let current_load := loads.getLastD 0
    (List.range horizon).map
      (fun (i : Nat) => max 0 (min 100 (current_load + trend * ((i : ℚ) + 1))))

/-- Outcome of the fallible part of one prediction step: the feature
rebuild + scaling + `model.predict` pipeline. `pred q` is a raw model
output `q` (step then clamps, appends, and extends the window with a
synthetic sample); `emptyFrame` is `len(df) == 0` after `dropna` (append
current load, `continue`); `stepError` is an exception caught by the
per-step handler (append current load). -/
inductive StepOutcome where
  | pred (q : ℚ)
  | emptyFrame
  | stepError
deriving Repr, DecidableEq

/-- Abstraction of the trained sklearn model + pandas feature pipeline.
`outerOk = false` models an exception outside the per-step handler (the
outer `except`, which discards everything and falls back to
`_simple_trend_prediction`); `step i window` is the outcome of prediction
step `i` against the current sliding window. -/
structure ModelOracle where
  outerOk : Bool
  step : Nat → List Metric → StepOutcome

/-- The per-step loop of `DemandPredictor.predict_demand` (the `for step in
range(horizon)` body): on a successful prediction, clamp to `[0,100]`,
record it and extend the window with a synthetic sample; on an empty frame
or a per-step failure, record `fallback_load` (the last *original*
sample's `load_score`) and leave the window unchanged. -/
def predict_steps (step : Nat → List Metric → StepOutcome) (fallback_load : ℚ) :
    Nat → Nat → List Metric → List ℚ
  | 0, _, _ => []
  | k + 1, i, window =>
    match step i window with
    | .pred q =>
      let p := max 0 (min 100 q)
      let syn := create_synthetic_metric (window.getLastD default) p
      p :: predict_steps step fallback_load k (i + 1) (window ++ [syn])
    | .emptyFrame => fallback_load :: predict_steps step fallback_load k (i + 1) window
    | .stepError => fallback_load :: predict_steps step fallback_load k (i + 1) window

/-- `DemandPredictor.predict_demand`: untrained model or fewer than 5 recent
samples falls back to repeating the last observed load (50 when the list is
empty); otherwise runs the iterative multi-step loop over the last ≤ 15
samples, with total failure replaced wholesale by the trend fallback. -/
def predict_demand (is_trained : Bool) (oracle : ModelOracle)
    (recent_metrics : List Metric) (horizon : Nat) : List ℚ :=
  if ¬ is_trained ∨ recent_metrics.length < 5 then
    let current_load := match recent_metrics.getLast? with
      | some m => m.load_score
      | none => 50
    List.replicate horizon current_load
  else if oracle.outerOk then
    predict_steps oracle.step ((recent_metrics.getLastD default).load_score)
      horizon 0 (takeLast 15 recent_metrics)
  else
    simple_trend_prediction recent_metrics horizon

/-! ## Recommendations (`DemandPredictor.get_scaling_recommendation`) -/

/-- Recommendation record; `predicted_load`/`max_predicted_load`/`trend`
are absent (`none`) only in the empty-predictions early return. -/
structure Recommendation where
  action : String
  confidence : ℚ
  reason : String
  predicted_load : Option ℚ
  max_predicted_load : Option ℚ
  trend : Option ℚ
deriving Repr, DecidableEq

/-- Python's `max(list)` (junk 0 on the empty list, which the source never
reaches because of its early return). -/
def listMax : List ℚ → ℚ
  | [] => 0
  | x :: xs => xs.foldl max x

/-- `DemandPredictor.get_scaling_recommendation`: the fixed-priority rule
ladder over the prediction list and the current load. -/
def get_scaling_recommendation (predictions : List ℚ) (current_load : ℚ) : Recommendation :=
  if predictions = [] then
    { action := "maintain", confidence := 1/2, reason := "No predictions available"
      predicted_load := none, max_predicted_load := none, trend := none }
  else
    let avg_predicted_load := predictions.sum / (predictions.length : ℚ)
    let max_predicted_load := listMax predictions
    let trend := predictions.getLastD 0 - current_load
    let core : String × ℚ × String :=
      if max_predicted_load > 80 then
        ("scale_up", min (9/10) ((max_predicted_load - 80) / 20), "High load predicted")
      else if avg_predicted_load < 30 ∧ current_load < 40 then
        ("scale_down", min (8/10) ((40 - avg_predicted_load) / 40), "Low load predicted")
      else if trend > 15 then
        ("scale_up", 7/10, "Rising trend detected")
      else if trend < -15 then
        ("scale_down", 6/10, "Declining trend detected")
      else
        ("maintain", 8/10, "Stable load predicted")
    { action := core.1, confidence := core.2.1, reason := core.2.2
      predicted_load := some avg_predicted_load
      max_predicted_load := some max_predicted_load
      trend := some trend }

/-! ## Scaling engine (`scaling_engine.py`) -/

/-- Resource totals / per-instance sizing dict, as produced by
`ScalingEngine._calculate_resource_allocation` and stored in
`ResourceState['resources']`. -/
structure Resources where
  total_cpu_cores : ℚ
  total_memory_gb : ℚ
  total_storage_gb : ℚ
  cpu_per_instance : ℚ
  memory_per_instance : ℚ
  storage_per_instance : ℚ
deriving Repr, DecidableEq

/-- `ScalingEngine` configuration (`_load_config` defaults, possibly merged
with a config file). -/
structure ScalingConfig where
  min_instances : Int
  max_instances : Int
  scale_up_threshold : ℚ
  scale_down_threshold : ℚ
  scale_up_cooldown : ℚ
  scale_down_cooldown : ℚ
  confidence_threshold : ℚ
  limit_cpu_cores : ℚ
  limit_memory_gb : ℚ
  limit_storage_gb : ℚ
deriving Repr, DecidableEq

/-- The built-in defaults of `ScalingEngine._load_config`. -/
def defaultConfig : ScalingConfig :=
  { min_instances := 1, max_instances := 10
    scale_up_threshold := 70, scale_down_threshold := 30
    scale_up_cooldown := 300, scale_down_cooldown := 600
    confidence_threshold := 6/10
    limit_cpu_cores := 16, limit_memory_gb := 32, limit_storage_gb := 500 }

/-- The `current_state` snapshot dict handed to `make_scaling_decision`;
each key is read with `.get(key, default)`, hence `Option` fields
(`none` models an absent key; an absent `current_resources` defaults to an
empty dict, also modelled by `none`). -/
structure EngineSnapshot where
  current_instances : Option Int
  load_score : Option ℚ
  current_resources : Option Resources
deriving Repr, DecidableEq

/-- A prior decision as consulted by `_check_cooldown` (only `timestamp`
and `action` are read). -/
structure PriorDecision where
  timestamp : ℚ
  action : String
deriving Repr, DecidableEq

/-- Result dict of `_check_cooldown`. -/
inductive CooldownResult where
  | allowed
  | vetoed (reason : String) (remaining_time : ℚ)
deriving Repr, DecidableEq

/-- The `for decision in reversed(recent_decisions[-10:])` loop body of
`ScalingEngine._check_cooldown`, with its early returns. -/
def cooldown_scan (cfg : ScalingConfig) (now : ℚ) : List PriorDecision → CooldownResult
  | [] => .allowed
  | d :: rest =>
    let time_diff := now - d.timestamp
    if d.action = "scale_up" then
      if time_diff < cfg.scale_up_cooldown then
        .vetoed "Scale-up cooldown active" (cfg.scale_up_cooldown - time_diff)
      else cooldown_scan cfg now rest
    else if d.action = "scale_down" then
      if time_diff < cfg.scale_down_cooldown then
        .vetoed "Scale-down cooldown active" (cfg.scale_down_cooldown - time_diff)
      else cooldown_scan cfg now rest
    else cooldown_scan cfg now rest

/-- `ScalingEngine._check_cooldown`: scans the 10 most recent prior
decisions, most-recent-first (the empty-list early return of the source
coincides with the scan of an empty list). -/
def check_cooldown (cfg : ScalingConfig) (now : ℚ) (recent_decisions : List PriorDecision) :
    CooldownResult :=
  cooldown_scan cfg now (takeLast 10 recent_decisions).reverse

/-- `ScalingEngine._calculate_resource_allocation`. -/
def calculate_resource_allocation (cfg : ScalingConfig) (instances : Int)
    (predicted_load : ℚ) : Resources :=
  let load_factor := predicted_load / 100
  let cpu_per_instance := 2 + load_factor * 2
  let memory_per_instance := 4 + load_factor * 4
  let storage_per_instance := 20 + load_factor * 10
  { total_cpu_cores := min cfg.limit_cpu_cores ((instances : ℚ) * cpu_per_instance)
    total_memory_gb := min cfg.limit_memory_gb ((instances : ℚ) * memory_per_instance)
    total_storage_gb := min cfg.limit_storage_gb ((instances : ℚ) * storage_per_instance)
    cpu_per_instance := cpu_per_instance
    memory_per_instance := memory_per_instance
    storage_per_instance := storage_per_instance }

/-- Python's `int(q)` on a float: truncation toward zero. -/
def truncInt (q : ℚ) : Int := if 0 ≤ q then ⌊q⌋ else ⌈q⌉

/-- `ScalingEngine._calculate_target_resources`. -/
def calculate_target_resources (cfg : ScalingConfig) (current_state : EngineSnapshot)
    (recommendation : Recommendation) : Int × Resources :=
  let current_instances := current_state.current_instances.getD 1
  let current_load := current_state.load_score.getD 50
  let predicted_load := recommendation.max_predicted_load.getD current_load
  let target_instances :=
    if recommendation.action = "scale_up" then
      let load_factor := predicted_load / 100
      let additional_instances := max 1 (truncInt (load_factor * 2))
      current_instances + additional_instances
    else if recommendation.action = "scale_down" then
      if predicted_load < 20 then max 1 (current_instances - 2)
      else if predicted_load < 40 then max 1 (current_instances - 1)
      else current_instances
    else current_instances
  (target_instances, calculate_resource_allocation cfg target_instances predicted_load)

/-- Python's `round(x, 2)` (half-to-even ties, exact on `ℚ`). -/
def round2 (q : ℚ) : ℚ :=
  let y := q * 100
  let fl : Int := ⌊y⌋
  let frac := y - (fl : ℚ)
  let r : Int :=
    if frac < 1/2 then fl
    else if frac > 1/2 then fl + 1
    else if fl % 2 = 0 then fl else fl + 1
  (r : ℚ) / 100

/-- Cost-impact dict of `ScalingEngine._estimate_cost_impact`. -/
structure CostImpact where
  current_hourly_cost : ℚ
  target_hourly_cost : ℚ
  hourly_cost_change : ℚ
  daily_cost_change : ℚ
  monthly_cost_change : ℚ
deriving Repr, DecidableEq

/-- `ScalingEngine._estimate_cost_impact`. -/
def estimate_cost_impact (current_instances target_instances : Int) : CostImpact :=
  let cost_per_instance_hour : ℚ := 1/10
  let current_cost := (current_instances : ℚ) * cost_per_instance_hour
  let target_cost := (target_instances : ℚ) * cost_per_instance_hour
  let cost_change := target_cost - current_cost
  { current_hourly_cost := round2 current_cost
    target_hourly_cost := round2 target_cost
    hourly_cost_change := round2 cost_change
    daily_cost_change := round2 (cost_change * 24)
    monthly_cost_change := round2 (cost_change * 24 * 30) }

/-- `ScalingEngine._generate_decision_reason` (numeric interpolation of the
instance counts elided; no claim reads the digits). -/
def generate_decision_reason (recommendation : Recommendation)
    (target current : Int) : String :=
  if target > current then "Scaling up: " ++ recommendation.reason
  else if target < current then "Scaling down: " ++ recommendation.reason
  else "Maintaining: " ++ recommendation.reason

/-- The decision dict returned by `make_scaling_decision`.  Keys present
only on some paths are `Option` fields: the cooldown veto is the only path
writing `cooldown_remaining`; the two veto paths omit `current_instances`,
`predicted_load`, `max_predicted_load` and `cost_impact`. -/
structure EngineDecision where
  timestamp : ℚ
  action : String
  reason : String
  confidence : ℚ
  current_instances : Option Int
  recommended_instances : Int
  recommended_resources : Option Resources
  cooldown_remaining : Option ℚ
  predicted_load : Option ℚ
  max_predicted_load : Option ℚ
  cost_impact : Option CostImpact
deriving Repr, DecidableEq

/-- `ScalingEngine.make_scaling_decision`: cooldown gate, then confidence
gate, then sizing, clamping to `[min_instances, max_instances]`, and final
action derived from comparing the clamped target with the current count. -/
def make_scaling_decision (cfg : ScalingConfig) (now : ℚ)
    (current_state : EngineSnapshot) (recommendation : Recommendation)
    (recent_decisions : List PriorDecision) : EngineDecision :=
  match check_cooldown cfg now recent_decisions with
  | .vetoed vreason remaining =>
    { timestamp := now, action := "maintain"
      reason := "Cooldown active: " ++ vreason
      confidence := 1
      current_instances := none
      recommended_instances := current_state.current_instances.getD 1
      recommended_resources := current_state.current_resources
      cooldown_remaining := some remaining
      predicted_load := none, max_predicted_load := none, cost_impact := none }
  | .allowed =>
    if recommendation.confidence < cfg.confidence_threshold then
      { timestamp := now, action := "maintain"
        reason := "Low confidence"
        confidence := recommendation.confidence
        current_instances := none
        recommended_instances := current_state.current_instances.getD 1
        recommended_resources := current_state.current_resources
        cooldown_remaining := none
        predicted_load := none, max_predicted_load := none, cost_impact := none }
    else
      let tr := calculate_target_resources cfg current_state recommendation
      let target_instances :=
        max cfg.min_instances (min cfg.max_instances tr.1)
      let current_instances := current_state.current_instances.getD 1
      let action :=
        if target_instances > current_instances then "scale_up"
        else if target_instances < current_instances then "scale_down"
        else "maintain"
      { timestamp := now, action
        reason := generate_decision_reason recommendation target_instances current_instances
        confidence := recommendation.confidence
        current_instances := some current_instances
        recommended_instances := target_instances
        recommended_resources := some tr.2
        cooldown_remaining := none
        predicted_load := some (recommendation.predicted_load.getD 0)
        max_predicted_load := some (recommendation.max_predicted_load.getD 0)
        cost_impact := some (estimate_cost_impact current_instances target_instances) }

/-! ## Resource lifecycle manager (`resource_manager.py`) -/

/-- One entry of `ResourceState['scaling_events']`. -/
structure ScalingEvent where
  timestamp : ℚ
  action : String
  instances_before : Int
  instances_after : Int
  reason : String
  execution_time : ℚ
deriving Repr, DecidableEq

/-- The durable `ResourceState` document owned by `ResourceManager`. -/
structure ResourceState where
  instances : Int
  resources : Resources
  status : String
  last_updated : ℚ
  scaling_events : List ScalingEvent
deriving Repr, DecidableEq

/-- A scaling decision as consumed by `ResourceManager` (a plain dict in
the source; keys a path may find missing are `Option`).  The `none` of
`recommended_resources` also stands for the empty dict `{}` that
`rollback_last_scaling` supplies, from which any per-instance lookup would
raise just as a missing key would. -/
structure Decision where
  action : String
  recommended_instances : Option Int
  recommended_resources : Option Resources
  reason : Option String
deriving Repr, DecidableEq

/-- Descriptor of a provisioned instance (`_scale_up`). -/
structure ProvisionedInstance where
  id : String
  cpu_cores : ℚ
  memory_gb : ℚ
  storage_gb : ℚ
  status : String
deriving Repr, DecidableEq

/-- Descriptor of a terminated instance (`_scale_down`). -/
structure RemovedInstance where
  id : String
  status : String
deriving Repr, DecidableEq

/-- Action-specific result dict merged into the execution result by
`_scale_up` / `_scale_down` / `_maintain_resources`. -/
inductive ActionDetail where
  | scaleUp (instances_added : Int) (new_total_instances : Int)
      (provisioned_instances : List ProvisionedInstance) (resource_allocation : Resources)
  | scaleDown (instances_removed : Int) (new_total_instances : Int)
      (removed_instances : List RemovedInstance) (resource_allocation : Resources)
  | maintained (instances_maintained : Int) (optimization_applied : Bool)
      (resource_allocation : Resources)
deriving Repr, DecidableEq

/-- `ResourceManager.execute_scaling_decision`'s result dict.
`previous_state` is the `dict(self.current_state)` snapshot; the source
takes a *shallow* copy, so the snapshot's `scaling_events` list aliases the
live one until the retention slice rebinds it — no claim reads
`previous_state.scaling_events`, and the scalar `instances` read by
`_update_state` is genuinely the pre-call value, which is what this value
models. -/
structure ExecutionResult where
  timestamp : ℚ
  action : String
  status : String
  execution_time_seconds : ℚ
  previous_state : ResourceState
  errors : List String
  warnings : List String
  detail : Option ActionDetail
deriving Repr, DecidableEq

/-- In-memory manager plus its persisted side effects: `state_file` is the
JSON document on disk (`none` = never written), `execution_history` the
in-process log. -/
structure ManagerState where
  current_state : ResourceState
  state_file : Option ResourceState
  execution_history : List ExecutionResult
deriving Repr, DecidableEq

/-- Exceptions that the simulated checklist steps (prints + sleeps standing
in for a provisioning / shutdown / maintenance API) may raise: the oracle
is consulted per (context id, step description). -/
def StepOracle := String → String → Except String Unit

/-- A `StepOracle` in which no checklist step ever fails — the behavior of
the source's print/sleep steps when nothing is injected. -/
def okSteps : StepOracle := fun _ _ => .ok ()

/-- Run an ordered checklist for one context id, stopping at the first
failing step. -/
def run_steps (oracle : StepOracle) (ctx : String) : List String → Except String Unit
  | [] => .ok ()
  | s :: rest =>
    match oracle ctx s with
    | .ok () => run_steps oracle ctx rest
    | .error e => .error e

/-- The provisioning checklist of `_scale_up`. -/
def provisionSteps : List String :=
  ["Requesting compute resources", "Allocating CPU and memory", "Setting up networking",
   "Installing application", "Running health checks", "Adding to load balancer"]

/-- The graceful-shutdown checklist of `_scale_down`. -/
def shutdownSteps : List String :=
  ["Draining connections", "Removing from load balancer", "Stopping application",
   "Backing up data", "Deallocating resources"]

/-- The maintenance checklist of `_maintain_resources`. -/
def maintenanceSteps : List String :=
  ["Performing health checks", "Optimizing resource allocation",
   "Updating monitoring configuration"]

/-- The `for i in range(new_instances)` provisioning loop of `_scale_up`:
run the checklist for `instance-(current+i+1)`, then build its descriptor
from the decision's per-instance resources (whose lookup raises when the
resources dict is missing/empty). -/
def provision_loop (oracle : StepOracle) (ores : Option Resources) (current : Int) :
    List Nat → Except String (List ProvisionedInstance)
  | [] => .ok []
  | i :: rest =>
    let instance_id := "instance-" ++ toString (current + (i : Int) + 1)
    match run_steps oracle instance_id provisionSteps with
    | .error e => .error e
    | .ok () =>
      match ores with
      | none => .error "KeyError: recommended_resources"
      | some res =>
        match provision_loop oracle ores current rest with
        | .error e => .error e
        | .ok tl =>
          .ok ({ id := instance_id, cpu_cores := res.cpu_per_instance,
                 memory_gb := res.memory_per_instance, storage_gb := res.storage_per_instance,
                 status := "active" } :: tl)

/-- The `for i in range(instances_to_remove)` loop of `_scale_down`. -/
def remove_loop (oracle : StepOracle) (current : Int) :
    List Nat → Except String (List RemovedInstance)
  | [] => .ok []
  | i :: rest =>
    let instance_id := "instance-" ++ toString (current - (i : Int))
    match run_steps oracle instance_id shutdownSteps with
    | .error e => .error e
    | .ok () =>
      match remove_loop oracle current rest with
      | .error e => .error e
      | .ok tl => .ok ({ id := instance_id, status := "terminated" } :: tl)

/-- `ResourceManager._scale_up`. -/
def scale_up (oracle : StepOracle) (st : ResourceState) (d : Decision) :
    Except String ActionDetail :=
  match d.recommended_instances with
  | none => .error "KeyError: recommended_instances"
  | some target_instances =>
    let current_instances := st.instances
    let new_instances := target_instances - current_instances
    match provision_loop oracle d.recommended_resources current_instances
        (List.range new_instances.toNat) with
    | .error e => .error e
    | .ok provisioned =>
      match d.recommended_resources with
      | none => .error "KeyError: recommended_resources"
      | some res => .ok (.scaleUp new_instances target_instances provisioned res)

/-- `ResourceManager._scale_down`. -/
def scale_down (oracle : StepOracle) (st : ResourceState) (d : Decision) :
    Except String ActionDetail :=
  match d.recommended_instances with
  | none => .error "KeyError: recommended_instances"
  | some target_instances =>
    let current_instances := st.instances
    let instances_to_remove := current_instances - target_instances
    match remove_loop oracle current_instances (List.range instances_to_remove.toNat) with
    | .error e => .error e
    | .ok removed =>
      match d.recommended_resources with
      | none => .error "KeyError: recommended_resources"
      | some res => .ok (.scaleDown instances_to_remove target_instances removed res)

/-- `ResourceManager._maintain_resources`: reads only the current state. -/
def maintain_resources (oracle : StepOracle) (st : ResourceState) :
    Except String ActionDetail :=
  match run_steps oracle "" maintenanceSteps with
  | .error e => .error e
  | .ok () => .ok (.maintained st.instances true st.resources)

/-- `ResourceManager._update_state`, with the in-place mutation order of
the source made explicit: for a completed scale_up/scale_down, `instances`
is replaced, then `resources`, and only then is `decision['reason']` read
while building the scaling event — so a missing `reason` key raises *after*
the replacements, and the returned state carries them. -/
def update_state (st : ResourceState) (d : Decision) (res : ExecutionResult) :
    ResourceState × Except String Unit :=
  if res.status = "completed" then
    let replaced : ResourceState × Except String Unit :=
      if d.action = "scale_up" ∨ d.action = "scale_down" then
        match d.recommended_instances with
        | none => (st, .error "KeyError: recommended_instances")
        | some n =>
          let st1 := { st with instances := n }
          match d.recommended_resources with
          | none => (st1, .error "KeyError: recommended_resources")
          | some r => ({ st1 with resources := r }, .ok ())
      else (st, .ok ())
    match replaced with
    | (st1, .error e) => (st1, .error e)
    | (st1, .ok ()) =>
      match d.reason with
      | none => (st1, .error "KeyError: reason")
      | some reasonText =>
        let scaling_event : ScalingEvent :=
          { timestamp := res.timestamp, action := d.action
            instances_before := res.previous_state.instances
            instances_after := st1.instances
            reason := reasonText
            execution_time := res.execution_time_seconds }
        let evs := st1.scaling_events ++ [scaling_event]
        let evs := if evs.length > 50 then takeLast 50 evs else evs
        ({ st1 with scaling_events := evs }, .ok ())
  else (st, .ok ())

/-- `ResourceManager._simulate_scaling_time`. -/
def simulate_scaling_time (action : String) : ℚ :=
  if action = "scale_up" then 2
  else if action = "scale_down" then 1
  else 1/2

/-- `ResourceManager._save_state`: stamp `last_updated` and rewrite the
state file with the current state. -/
def save_state (now : ℚ) (st : ResourceState) : ResourceState × Option ResourceState :=
  let st' := { st with last_updated := now }
  (st', some st')

/-- `ResourceManager.execute_scaling_decision`: dispatch on the action,
mark completed and update state, or catch any raised step as
status=failed; then log the result and save state unconditionally. -/
def execute_scaling_decision (oracle : StepOracle) (now : ℚ)
    (m : ManagerState) (d : Decision) : ManagerState × ExecutionResult :=
  let execution_time := simulate_scaling_time d.action
  let base : ExecutionResult :=
    { timestamp := now, action := d.action, status := "started"
      execution_time_seconds := execution_time
      previous_state := m.current_state
      errors := [], warnings := [], detail := none }
  let attempt : Except String ActionDetail :=
    if d.action = "scale_up" then scale_up oracle m.current_state d
    else if d.action = "scale_down" then scale_down oracle m.current_state d
    else maintain_resources oracle m.current_state
  let stepped : ResourceState × ExecutionResult :=
    match attempt with
    | .error e => (m.current_state, { base with status := "failed", errors := base.errors ++ [e] })
    | .ok detail =>
      let completed := { base with detail := some detail, status := "completed" }
      match update_state m.current_state d completed with
      | (st1, .ok ()) => (st1, completed)
      | (st1, .error e) =>
        (st1, { completed with status := "failed", errors := completed.errors ++ [e] })
  let saved := save_state now stepped.1
  ({ current_state := saved.1, state_file := saved.2
     execution_history := m.execution_history ++ [stepped.2] }, stepped.2)

/-- Result of `ResourceManager.rollback_last_scaling`: either the
no-events early return or the execution result of the rollback decision. -/
inductive RollbackResult where
  | noEvents
  | executed (r : ExecutionResult)
deriving Repr, DecidableEq

/-- `ResourceManager.rollback_last_scaling`: build a decision with
`action='rollback'` targeting the most recent event's `instances_before`
(its `recommended_resources` is the empty dict) and push it through
`execute_scaling_decision`. -/
def rollback_last_scaling (oracle : StepOracle) (now : ℚ) (m : ManagerState) :
    ManagerState × RollbackResult :=
  match m.current_state.scaling_events.getLast? with
  | none => (m, .noEvents)
  | some last_event =>
    let rollback_decision : Decision :=
      { action := "rollback"
        recommended_instances := some last_event.instances_before
        recommended_resources := none
        reason := some ("Rollback of " ++ last_event.action) }
    let er := execute_scaling_decision oracle now m rollback_decision
    (er.1, .executed er.2)

/-! ## Derived definitions used by the verification -/

/-- Iterated execution of one fixed decision (the driver used to state the
55-successful-executions retention property). -/
def exec_iter (oracle : StepOracle) (d : Decision) : Nat → ManagerState → ManagerState
  | 0, m => m
  | n + 1, m => exec_iter oracle d n (execute_scaling_decision oracle ((n : ℚ) + 1) m d).1

/-- Spec-side reading of the cooldown match condition, used to characterize
`check_cooldown` as a first-match scan: a prior decision matches when it is
a scale_up younger than `scale_up_cooldown` or a scale_down younger than
`scale_down_cooldown`. -/
def cooldownMatches (cfg : ScalingConfig) (now : ℚ) (d : PriorDecision) : Bool :=
  (d.action == "scale_up" && decide (now - d.timestamp < cfg.scale_up_cooldown)) ||
  (d.action == "scale_down" && decide (now - d.timestamp < cfg.scale_down_cooldown))

/-- Spec-side first matching prior decision among the 10 most recent,
scanned most-recent-first. -/
def cooldownFirstMatch (cfg : ScalingConfig) (now : ℚ) (ds : List PriorDecision) :
    Option PriorDecision :=
  ((takeLast 10 ds).reverse).find? (cooldownMatches cfg now)

/-- The resource totals of `r` respect the configured ceilings. -/
def withinCeilings (cfg : ScalingConfig) (r : Resources) : Prop :=
  r.total_cpu_cores ≤ cfg.limit_cpu_cores ∧
  r.total_memory_gb ≤ cfg.limit_memory_gb ∧
  r.total_storage_gb ≤ cfg.limit_storage_gb

/-- Status of a rollback result, for stating facts about `rollback_last_scaling`. -/
def rollbackStatus : RollbackResult → Option String
  | .noEvents => none
  | .executed r => some r.status

/-! ## Concrete fixtures used by witnesses and counterexamples -/

/-- A small well-formed resources dict within the default ceilings. -/
def resFix : Resources := ⟨4, 8, 40, 2, 4, 20⟩

/-- Initial resource state: one instance, no scaling events. -/
def stFix : ResourceState := ⟨1, resFix, "active", 0, []⟩

/-- Initial manager: `stFix`, nothing persisted yet, empty log. -/
def mFix : ManagerState := ⟨stFix, none, []⟩

/-- A `StepOracle` in which every checklist step raises (models a
provisioning step failing mid-checklist). -/
def failStep : StepOracle := fun _ _ => .error "Provisioning step failed"

/-! ## Helper lemmas -/

theorem takeLast_length (n : Nat) (xs : List α) : (takeLast n xs).length = min xs.length n := by
  simp only [takeLast, List.length_drop]
  omega

theorem takeLast_of_length_le (n : Nat) (xs : List α) (h : xs.length ≤ n) :
    takeLast n xs = xs := by
  simp only [takeLast, Nat.sub_eq_zero_of_le h, List.drop_zero]

theorem takeLast_takeLast (n : Nat) (xs : List α) :
    takeLast n (takeLast n xs) = takeLast n xs := by
  apply takeLast_of_length_le
  rw [takeLast_length]
  omega

theorem clamp_nonneg (q : ℚ) : 0 ≤ max 0 (min 100 q) := le_max_left 0 _

theorem clamp_le_100 (q : ℚ) : max 0 (min 100 q) ≤ 100 :=
  max_le (by norm_num) (min_le_left 100 q)

/-! ## Claim theorems -/

/-- Claim C6: `get_scaling_recommendation` applies the fixed-priority rule
ladder — (1) max(predictions) > 80 ⇒ scale_up with confidence
min(0.9, (max−80)/20); (2) else avg < 30 and currentLoad < 40 ⇒ scale_down
with confidence min(0.8, (40−avg)/40); (3) else trend > 15 ⇒ scale_up with
confidence 0.7; (4) else trend < −15 ⇒ scale_down with confidence 0.6;
(5) else maintain with confidence 0.8 — and in particular yields scale_up
with confidence 0.5 on ([90,90,90,90,90], 50) and scale_down with
confidence 0.5 on ([20,20,20,20,20], 25). -/
theorem C6_recommendation_rule_ladder (ps : List ℚ) (cl : ℚ) (hne : ps ≠ []) :
    ((listMax ps > 80 →
        (get_scaling_recommendation ps cl).action = "scale_up" ∧
        (get_scaling_recommendation ps cl).confidence = min (9/10) ((listMax ps - 80) / 20)) ∧
     (¬ listMax ps > 80 → ps.sum / (ps.length : ℚ) < 30 → cl < 40 →
        (get_scaling_recommendation ps cl).action = "scale_down" ∧
        (get_scaling_recommendation ps cl).confidence = min (8/10) ((40 - ps.sum / (ps.length : ℚ)) / 40)) ∧
     (¬ listMax ps > 80 → ¬ (ps.sum / (ps.length : ℚ) < 30 ∧ cl < 40) →
        ps.getLastD 0 - cl > 15 →
        (get_scaling_recommendation ps cl).action = "scale_up" ∧
        (get_scaling_recommendation ps cl).confidence = 7/10) ∧
     (¬ listMax ps > 80 → ¬ (ps.sum / (ps.length : ℚ) < 30 ∧ cl < 40) →
        ¬ ps.getLastD 0 - cl > 15 → ps.getLastD 0 - cl < -15 →
        (get_scaling_recommendation ps cl).action = "scale_down" ∧
        (get_scaling_recommendation ps cl).confidence = 6/10) ∧
     (¬ listMax ps > 80 → ¬ (ps.sum / (ps.length : ℚ) < 30 ∧ cl < 40) →
        ¬ ps.getLastD 0 - cl > 15 → ¬ ps.getLastD 0 - cl < -15 →
        (get_scaling_recommendation ps cl).action = "maintain" ∧
        (get_scaling_recommendation ps cl).confidence = 8/10)) ∧
    ((get_scaling_recommendation [90,90,90,90,90] 50).action = "scale_up" ∧
     (get_scaling_recommendation [90,90,90,90,90] 50).confidence = 1/2) ∧
    ((get_scaling_recommendation [20,20,20,20,20] 25).action = "scale_down" ∧
     (get_scaling_recommendation [20,20,20,20,20] 25).confidence = 1/2) := by
  refine ⟨⟨?_, ?_, ?_, ?_, ?_⟩, ?_, ?_⟩
  · intro h1
    simp [get_scaling_recommendation, hne, h1]
  · intro h1 h2 h3
    simp [get_scaling_recommendation, hne, h1, h2, h3]
  · intro h1 h2 h3
    simp only [get_scaling_recommendation, if_neg hne]
    rw [if_neg h1, if_neg h2, if_pos h3]
    exact ⟨rfl, rfl⟩
  · intro h1 h2 h3 h4
    simp only [get_scaling_recommendation, if_neg hne]
    rw [if_neg h1, if_neg h2, if_neg h3, if_pos h4]
    exact ⟨rfl, rfl⟩
  · intro h1 h2 h3 h4
    simp only [get_scaling_recommendation, if_neg hne]
    rw [if_neg h1, if_neg h2, if_neg h3, if_neg h4]
    exact ⟨rfl, rfl⟩
  · simp only [get_scaling_recommendation]
    rw [if_neg (List.cons_ne_nil _ _)]
    norm_num [listMax]
  · simp only [get_scaling_recommendation]
    rw [if_neg (List.cons_ne_nil _ _)]
    norm_num [listMax]

/-- Witness for C6: the high-load example evaluated concretely. -/
theorem C6_witness :
    (get_scaling_recommendation [90,90,90,90,90] 50).action = "scale_up" ∧
    (get_scaling_recommendation [90,90,90,90,90] 50).confidence = 1/2 :=
  (C6_recommendation_rule_ladder [90,90,90,90,90] 50 (List.cons_ne_nil _ _)).2.1

/-- Claim C9: on a non-empty sample list, an untrained model or fewer than
5 recent samples makes `predict_demand` return the last observed
`load_score` repeated `horizon` times. -/
theorem C9_untrained_or_sparse_fallback (is_trained : Bool) (oracle : ModelOracle)
    (recent_metrics : List Metric) (horizon : Nat) (hne : recent_metrics ≠ [])
    (hcase : is_trained = false ∨ recent_metrics.length < 5) :
    predict_demand is_trained oracle recent_metrics horizon =
      List.replicate horizon ((recent_metrics.getLast hne).load_score) := by
  have hcond : ¬ is_trained = true ∨ recent_metrics.length < 5 := by
    rcases hcase with h | h
    · left; simp [h]
    · right; exact h
  have hlast : recent_metrics.getLast? = some (recent_metrics.getLast hne) :=
    List.getLast?_eq_getLast recent_metrics hne
  simp only [predict_demand]
  rw [if_pos (by simpa using hcond), hlast]

/-- Witness for C9: two samples, untrained model, horizon 3. -/
theorem C9_witness :
    predict_demand false ⟨true, fun _ _ => .stepError⟩
      [⟨0, 10, 10, 50, 42⟩, ⟨1, 10, 10, 50, 37⟩] 3 = [37, 37, 37] := by
  rw [C9_untrained_or_sparse_fallback false ⟨true, fun _ _ => .stepError⟩
    [⟨0, 10, 10, 50, 42⟩, ⟨1, 10, 10, 50, 37⟩] 3 (List.cons_ne_nil _ _) (Or.inl rfl)]
  rfl

theorem predict_steps_length (f : Nat → List Metric → StepOutcome) (fb : ℚ) :
    ∀ (k i : Nat) (w : List Metric), (predict_steps f fb k i w).length = k := by
  intro k
  induction k with
  | zero => intro i w; rfl
  | succ k ih =>
    intro i w
    simp only [predict_steps]
    cases f i w <;> simp [ih]

theorem predict_steps_mem_bounds (f : Nat → List Metric → StepOutcome) (fb : ℚ)
    (hfb : 0 ≤ fb ∧ fb ≤ 100) :
    ∀ (k i : Nat) (w : List Metric) (q : ℚ), q ∈ predict_steps f fb k i w →
      0 ≤ q ∧ q ≤ 100 := by
  intro k
  induction k with
  | zero => intro i w q hq; simp [predict_steps] at hq
  | succ k ih =>
    intro i w q hq
    cases hcase : f i w with
    | pred p =>
      simp only [predict_steps, hcase, List.mem_cons] at hq
      rcases hq with rfl | hq
      · exact ⟨clamp_nonneg _, clamp_le_100 _⟩
      · exact ih _ _ _ hq
    | emptyFrame =>
      simp only [predict_steps, hcase, List.mem_cons] at hq
      rcases hq with rfl | hq
      · exact hfb
      · exact ih _ _ _ hq
    | stepError =>
      simp only [predict_steps, hcase, List.mem_cons] at hq
      rcases hq with rfl | hq
      · exact hfb
      · exact ih _ _ _ hq

theorem predict_steps_get_of_fail (f : Nat → List Metric → StepOutcome) (fb : ℚ) :
    ∀ (k i : Nat) (w : List Metric) (j : Nat), j < k →
      (∀ w', f (i + j) w' = .stepError) →
      (predict_steps f fb k i w).get? j = some fb := by
  intro k
  induction k with
  | zero => intro i w j hj _; omega
  | succ k ih =>
    intro i w j hj hf
    cases j with
    | zero =>
      have h0 : f i w = .stepError := by simpa using hf w
      simp [predict_steps, h0]
    | succ j =>
      have harg : ∀ w', f (i + 1 + j) w' = .stepError := by
        intro w'
        have := hf w'
        rwa [show i + (j + 1) = i + 1 + j by omega] at this
      cases hcase : f i w <;>
        simp only [predict_steps, hcase, List.get?_cons_succ] <;>
        exact ih (i + 1) _ j (by omega) harg

theorem simple_trend_length (recent_metrics : List Metric) (horizon : Nat) :
    (simple_trend_prediction recent_metrics horizon).length = horizon := by
  unfold simple_trend_prediction
  split
  · exact List.length_replicate _ _
  · rw [List.length_map, List.length_range]

theorem simple_trend_mem_bounds (recent_metrics : List Metric) (horizon : Nat) :
    ∀ q ∈ simple_trend_prediction recent_metrics horizon, 0 ≤ q ∧ q ≤ 100 := by
  unfold simple_trend_prediction
  split
  · intro q hq
    rw [List.eq_of_mem_replicate hq]
    norm_num
  · intro q hq
    simp only [List.mem_map] at hq
    obtain ⟨i, _, rfl⟩ := hq
    exact ⟨clamp_nonneg _, clamp_le_100 _⟩

/-- Claim C5: for every trained model (any oracle behavior) and every recent
sample list whose load scores lie in [0,100], `predict_demand` returns
exactly `horizon` values, each in [0,100]; a step whose pipeline fails
contributes the current (last observed) load at that step's position only —
the horizon is never shortened. -/
theorem C5_trained_horizon_and_bounds (oracle : ModelOracle)
    (recent_metrics : List Metric) (horizon : Nat)
    (hload : ∀ m ∈ recent_metrics, 0 ≤ m.load_score ∧ m.load_score ≤ 100) :
    (predict_demand true oracle recent_metrics horizon).length = horizon ∧
    (∀ q ∈ predict_demand true oracle recent_metrics horizon, 0 ≤ q ∧ q ≤ 100) ∧
    (∀ j < horizon, 5 ≤ recent_metrics.length → oracle.outerOk = true →
      (∀ w, oracle.step j w = .stepError) →
      (predict_demand true oracle recent_metrics horizon).get? j =
        some ((recent_metrics.getLastD default).load_score)) := by
  unfold predict_demand
  split_ifs with h1 h2
  · have h5 : recent_metrics.length < 5 := by
      rcases h1 with h | h
      · simp at h
      · exact h
    refine ⟨List.length_replicate _ _, ?_, ?_⟩
    · intro q hq
      rw [List.eq_of_mem_replicate hq]
      cases hrm : recent_metrics.getLast? with
      | none => norm_num
      | some m =>
        obtain ⟨hne, rfl⟩ := List.mem_getLast?_eq_getLast (by rw [hrm]; rfl)
        simpa using hload _ (List.getLast_mem hne)
    · intro j _ hge
      omega
  · have hlen5 : 5 ≤ recent_metrics.length := by
      rcases not_or.mp h1 with ⟨_, h⟩
      omega
    have hne : recent_metrics ≠ [] := by
      intro h
      rw [h] at hlen5
      simp at hlen5
    have hfb : 0 ≤ (recent_metrics.getLastD default).load_score ∧
        (recent_metrics.getLastD default).load_score ≤ 100 := by
      rw [List.getLastD_eq_getLast?, List.getLast?_eq_getLast recent_metrics hne]
      exact hload _ (List.getLast_mem hne)
    refine ⟨predict_steps_length _ _ _ _ _, ?_, ?_⟩
    · intro q hq
      exact predict_steps_mem_bounds _ _ hfb _ _ _ _ hq
    · intro j hj _ _ hfail
      exact predict_steps_get_of_fail _ _ horizon 0 _ j hj (by simpa using hfail)
  · refine ⟨simple_trend_length _ _, ?_, ?_⟩
    · intro q hq
      exact simple_trend_mem_bounds _ _ q hq
    · intro j _ _ habs
      exact absurd habs h2

/-- Five in-range samples used by the C5 witness. -/
def recentFix : List Metric :=
  [⟨0, 5, 5, 50, 10⟩, ⟨1, 5, 5, 50, 20⟩, ⟨2, 5, 5, 50, 30⟩, ⟨3, 5, 5, 50, 40⟩, ⟨4, 5, 5, 50, 50⟩]

/-- Witness for C5: an always-failing per-step oracle over five samples
still yields a full horizon, with the failing step reporting the last
observed load. -/
theorem C5_witness :
    (predict_demand true ⟨true, fun _ _ => .stepError⟩ recentFix 2).length = 2 ∧
    (predict_demand true ⟨true, fun _ _ => .stepError⟩ recentFix 2).get? 0 = some 50 := by
  have h := C5_trained_horizon_and_bounds ⟨true, fun _ _ => .stepError⟩ recentFix 2 ?hl
  · refine ⟨h.1, ?_⟩
    have h0 := h.2.2 0 (by norm_num) (by norm_num [recentFix]) rfl (fun w => rfl)
    have e : (recentFix.getLastD default).load_score = 50 := rfl
    rw [e] at h0
    exact h0
  case hl =>
    intro m hm
    simp only [recentFix, List.mem_cons, List.not_mem_nil, or_false] at hm
    rcases hm with rfl | rfl | rfl | rfl | rfl <;> norm_num

theorem cooldown_scan_eq_first_match (cfg : ScalingConfig) (now : ℚ) (l : List PriorDecision) :
    cooldown_scan cfg now l =
      match l.find? (cooldownMatches cfg now) with
      | none => .allowed
      | some d =>
        if d.action = "scale_up" then
          .vetoed "Scale-up cooldown active" (cfg.scale_up_cooldown - (now - d.timestamp))
        else
          .vetoed "Scale-down cooldown active" (cfg.scale_down_cooldown - (now - d.timestamp)) := by
  induction l with
  | nil => rfl
  | cons d rest ih =>
    by_cases hup : d.action = "scale_up"
    · by_cases hlt : now - d.timestamp < cfg.scale_up_cooldown
      · have hm : cooldownMatches cfg now d = true := by
          simp [cooldownMatches, hup, hlt]
        simp [cooldown_scan, hup, hlt, List.find?_cons, hm]
      · have hm : cooldownMatches cfg now d = false := by
          simp [cooldownMatches, hup, hlt]
        simp [cooldown_scan, hup, hlt, List.find?_cons, hm, ih]
    · by_cases hdn : d.action = "scale_down"
      · by_cases hlt : now - d.timestamp < cfg.scale_down_cooldown
        · have hm : cooldownMatches cfg now d = true := by
            simp [cooldownMatches, hup, hdn, hlt]
          simp [cooldown_scan, hup, hdn, hlt, List.find?_cons, hm]
        · have hm : cooldownMatches cfg now d = false := by
            simp [cooldownMatches, hup, hdn, hlt]
          simp [cooldown_scan, hup, hdn, hlt, List.find?_cons, hm, ih]
      · have hm : cooldownMatches cfg now d = false := by
          simp [cooldownMatches, hup, hdn]
        simp [cooldown_scan, hup, hdn, List.find?_cons, hm, ih]

/-- Claim C4: the cooldown gate scans at most the 10 most recent prior
decisions, most-recent-first with first match winning (characterized by
`cooldownFirstMatch`); a match makes `make_scaling_decision` return
maintain and report the remaining time (cooldown − elapsed); no match
leaves the gate allowed; in particular a 60-second-old scale_up with the
default 300-second cooldown yields maintain with remaining 240. -/
theorem C4_cooldown_gate (cfg : ScalingConfig) (now : ℚ) (cs : EngineSnapshot)
    (rec : Recommendation) (ds : List PriorDecision) :
    check_cooldown cfg now ds = check_cooldown cfg now (takeLast 10 ds) ∧
    (cooldownFirstMatch cfg now ds = none → check_cooldown cfg now ds = .allowed) ∧
    (∀ d, cooldownFirstMatch cfg now ds = some d →
      (make_scaling_decision cfg now cs rec ds).action = "maintain" ∧
      (make_scaling_decision cfg now cs rec ds).cooldown_remaining =
        some ((if d.action = "scale_up" then cfg.scale_up_cooldown
               else cfg.scale_down_cooldown) - (now - d.timestamp))) ∧
    ((make_scaling_decision defaultConfig 300 cs rec [⟨240, "scale_up"⟩]).action = "maintain" ∧
     (make_scaling_decision defaultConfig 300 cs rec
        [⟨240, "scale_up"⟩]).cooldown_remaining = some 240) := by
  refine ⟨?_, ?_, ?_, ?_⟩
  · unfold check_cooldown
    rw [takeLast_takeLast]
  · intro h
    unfold check_cooldown
    rw [cooldown_scan_eq_first_match]
    unfold cooldownFirstMatch at h
    rw [h]
  · intro d hd
    have hcc : check_cooldown cfg now ds =
        (if d.action = "scale_up" then
          CooldownResult.vetoed "Scale-up cooldown active"
            (cfg.scale_up_cooldown - (now - d.timestamp))
        else
          CooldownResult.vetoed "Scale-down cooldown active"
            (cfg.scale_down_cooldown - (now - d.timestamp))) := by
      unfold check_cooldown
      rw [cooldown_scan_eq_first_match]
      unfold cooldownFirstMatch at hd
      rw [hd]
    by_cases hup : d.action = "scale_up"
    · rw [if_pos hup] at hcc
      constructor
      · simp [make_scaling_decision, hcc]
      · simp [make_scaling_decision, hcc, hup]
    · rw [if_neg hup] at hcc
      constructor
      · simp [make_scaling_decision, hcc]
      · simp [make_scaling_decision, hcc, hup]
  · have hconc : check_cooldown defaultConfig 300 [⟨240, "scale_up"⟩] =
        .vetoed "Scale-up cooldown active" 240 := by
      norm_num [check_cooldown, cooldown_scan, takeLast, defaultConfig]
    constructor
    · simp [make_scaling_decision, hconc]
    · simp [make_scaling_decision, hconc]

/-- Witness for C4: the 60-second-old scale_up example at a concrete
snapshot and recommendation. -/
theorem C4_witness :
    (make_scaling_decision defaultConfig 300 ⟨some 2, some 50, some resFix⟩
      ⟨"scale_up", 8/10, "r", some 85, some 90, some 10⟩
      [⟨240, "scale_up"⟩]).action = "maintain" ∧
    (make_scaling_decision defaultConfig 300 ⟨some 2, some 50, some resFix⟩
      ⟨"scale_up", 8/10, "r", some 85, some 90, some 10⟩
      [⟨240, "scale_up"⟩]).cooldown_remaining = some 240 :=
  (C4_cooldown_gate defaultConfig 300 ⟨some 2, some 50, some resFix⟩
    ⟨"scale_up", 8/10, "r", some 85, some 90, some 10⟩ []).2.2.2

/-- An out-of-bounds snapshot: 11 instances (max is 10) and resource totals
above the default ceilings. -/
def snapOver : EngineSnapshot := ⟨some 11, some 50, some ⟨99, 99, 999, 9, 9, 90⟩⟩

/-- A recommendation below the default confidence threshold. -/
def recLowConf : Recommendation := ⟨"scale_up", 1/2, "r", some 85, some 90, some 10⟩

/-- Counterexample to C2: the confidence veto echoes the current snapshot's
instances and resources without clamping, so with 11 current instances
(max_instances = 10) and oversized current resources the returned decision
exceeds both the instance bound and the cpu ceiling. -/
theorem C2_counterexample :
    defaultConfig.max_instances <
      (make_scaling_decision defaultConfig 0 snapOver recLowConf []).recommended_instances ∧
    (∀ r, (make_scaling_decision defaultConfig 0 snapOver recLowConf []).recommended_resources =
        some r → defaultConfig.limit_cpu_cores < r.total_cpu_cores) := by
  constructor
  · norm_num [make_scaling_decision, check_cooldown, cooldown_scan, takeLast,
      defaultConfig, snapOver, recLowConf]
  · intro r hr
    norm_num [make_scaling_decision, check_cooldown, cooldown_scan, takeLast,
      defaultConfig, snapOver, recLowConf] at hr
    rw [← hr]
    norm_num [defaultConfig]

/-- Claim C2 (amended): provided the current snapshot is itself within
bounds — instance count in [min_instances, max_instances] (min ≤ max) and
recorded resource totals within the ceilings — every decision returned by
`make_scaling_decision` has its recommended instance count in
[min_instances, max_instances] and its recommended totals within the
ceilings; the two veto paths merely echo the current values, the sizing
path clamps and caps. -/
theorem C2_amended_bounds (cfg : ScalingConfig) (now : ℚ) (cs : EngineSnapshot)
    (rec : Recommendation) (ds : List PriorDecision)
    (hminmax : cfg.min_instances ≤ cfg.max_instances)
    (hlo : cfg.min_instances ≤ cs.current_instances.getD 1)
    (hhi : cs.current_instances.getD 1 ≤ cfg.max_instances)
    (hres : ∀ r, cs.current_resources = some r → withinCeilings cfg r) :
    cfg.min_instances ≤ (make_scaling_decision cfg now cs rec ds).recommended_instances ∧
    (make_scaling_decision cfg now cs rec ds).recommended_instances ≤ cfg.max_instances ∧
    (∀ r, (make_scaling_decision cfg now cs rec ds).recommended_resources = some r →
      withinCeilings cfg r) := by
  unfold make_scaling_decision
  split
  · exact ⟨hlo, hhi, hres⟩
  · split_ifs with hconf
    · exact ⟨hlo, hhi, hres⟩
    · simp only []
      refine ⟨le_max_left _ _, max_le hminmax (min_le_left _ _), ?_⟩
      intro r hr
      simp only [Option.some.injEq] at hr
      rw [← hr]
      simp only [calculate_target_resources, calculate_resource_allocation, withinCeilings]
      exact ⟨min_le_left _ _, min_le_left _ _, min_le_left _ _⟩

/-- Witness for the amended C2 at an in-bounds snapshot and a confident
scale_up recommendation. -/
theorem C2_witness :
    defaultConfig.min_instances ≤
      (make_scaling_decision defaultConfig 0 ⟨some 2, some 50, some resFix⟩
        ⟨"scale_up", 8/10, "r", some 85, some 90, some 10⟩ []).recommended_instances ∧
    (make_scaling_decision defaultConfig 0 ⟨some 2, some 50, some resFix⟩
      ⟨"scale_up", 8/10, "r", some 85, some 90, some 10⟩ []).recommended_instances ≤
        defaultConfig.max_instances ∧
    (∀ r, (make_scaling_decision defaultConfig 0 ⟨some 2, some 50, some resFix⟩
        ⟨"scale_up", 8/10, "r", some 85, some 90, some 10⟩ []).recommended_resources = some r →
      withinCeilings defaultConfig r) :=
  C2_amended_bounds defaultConfig 0 ⟨some 2, some 50, some resFix⟩
    ⟨"scale_up", 8/10, "r", some 85, some 90, some 10⟩ []
    (by norm_num [defaultConfig])
    (by norm_num [defaultConfig])
    (by norm_num [defaultConfig])
    (by
      intro r hr
      simp only [Option.some.injEq] at hr
      rw [← hr]
      norm_num [withinCeilings, resFix, defaultConfig])

theorem scale_up_ok_keys (oracle : StepOracle) (st : ResourceState) (d : Decision)
    (det : ActionDetail) (h : scale_up oracle st d = .ok det) :
    d.recommended_instances ≠ none ∧ d.recommended_resources ≠ none := by
  cases hri : d.recommended_instances with
  | none => simp [scale_up, hri] at h
  | some n =>
    cases hrr : d.recommended_resources with
    | none =>
      simp only [scale_up, hri, hrr] at h
      cases hp : provision_loop oracle none st.instances (List.range (n - st.instances).toNat) with
      | error e => rw [hp] at h; simp at h
      | ok tl => rw [hp] at h; simp at h
    | some r => exact ⟨by simp [hri], by simp [hrr]⟩

theorem scale_down_ok_keys (oracle : StepOracle) (st : ResourceState) (d : Decision)
    (det : ActionDetail) (h : scale_down oracle st d = .ok det) :
    d.recommended_instances ≠ none ∧ d.recommended_resources ≠ none := by
  cases hri : d.recommended_instances with
  | none => simp [scale_down, hri] at h
  | some n =>
    cases hrr : d.recommended_resources with
    | none =>
      simp only [scale_down, hri, hrr] at h
      cases hp : remove_loop oracle st.instances (List.range (st.instances - n).toNat) with
      | error e => rw [hp] at h; simp at h
      | ok tl => rw [hp] at h; simp at h
    | some r => exact ⟨by simp [hri], by simp [hrr]⟩

theorem attempt_ok_keys (oracle : StepOracle) (st : ResourceState) (d : Decision)
    (det : ActionDetail)
    (h : (if d.action = "scale_up" then scale_up oracle st d
          else if d.action = "scale_down" then scale_down oracle st d
          else maintain_resources oracle st) = .ok det) :
    d.action = "scale_up" ∨ d.action = "scale_down" →
      d.recommended_instances ≠ none ∧ d.recommended_resources ≠ none := by
  intro hact
  by_cases hup : d.action = "scale_up"
  · rw [if_pos hup] at h
    exact scale_up_ok_keys oracle st d det h
  · rcases hact with h1 | hdn
    · exact absurd h1 hup
    · rw [if_neg hup, if_pos hdn] at h
      exact scale_down_ok_keys oracle st d det h

theorem update_state_snd_ok (st : ResourceState) (d : Decision) (res : ExecutionResult)
    (hr : d.reason ≠ none)
    (hk : d.action = "scale_up" ∨ d.action = "scale_down" →
      d.recommended_instances ≠ none ∧ d.recommended_resources ≠ none) :
    (update_state st d res).2 = .ok () := by
  unfold update_state
  by_cases hstat : res.status = "completed"
  · rw [if_pos hstat]
    by_cases hact : d.action = "scale_up" ∨ d.action = "scale_down"
    · obtain ⟨hki, hkr⟩ := hk hact
      cases hri : d.recommended_instances with
      | none => exact absurd hri hki
      | some n =>
        cases hrr : d.recommended_resources with
        | none => exact absurd hrr hkr
        | some r =>
          cases hre : d.reason with
          | none => exact absurd hre hr
          | some s => simp [if_pos hact, hri, hrr, hre]
    · cases hre : d.reason with
      | none => exact absurd hre hr
      | some s => simp [if_neg hact, hre]
  · rw [if_neg hstat]

/-- Claim C1 (amended): for decisions that carry a `reason` entry, a failed
execution reports a non-empty error list and leaves the ResourceState's
instances, resources and scaling_events exactly as before the call.
(Without a `reason` entry the failure inside `_update_state` happens after
the instance/resource replacement, so state is partially applied — see the
counterexample.) -/
theorem C1_amended_atomic_failure (oracle : StepOracle) (now : ℚ) (m : ManagerState)
    (d : Decision) (hreason : d.reason ≠ none)
    (hfail : (execute_scaling_decision oracle now m d).2.status = "failed") :
    (execute_scaling_decision oracle now m d).2.errors ≠ [] ∧
    (execute_scaling_decision oracle now m d).1.current_state.instances =
      m.current_state.instances ∧
    (execute_scaling_decision oracle now m d).1.current_state.resources =
      m.current_state.resources ∧
    (execute_scaling_decision oracle now m d).1.current_state.scaling_events =
      m.current_state.scaling_events := by
  cases hatt : (if d.action = "scale_up" then scale_up oracle m.current_state d
      else if d.action = "scale_down" then scale_down oracle m.current_state d
      else maintain_resources oracle m.current_state) with
  | error e =>
    simp [execute_scaling_decision, hatt, save_state]
  | ok det =>
    exfalso
    have hk := attempt_ok_keys oracle m.current_state d det hatt
    simp only [execute_scaling_decision, hatt, save_state] at hfail
    have hok := update_state_snd_ok m.current_state d
      { timestamp := now, action := d.action, status := "completed",
        execution_time_seconds := simulate_scaling_time d.action,
        previous_state := m.current_state, errors := [], warnings := [],
        detail := some det } hreason hk
    have hpair : update_state m.current_state d
        { timestamp := now, action := d.action, status := "completed",
          execution_time_seconds := simulate_scaling_time d.action,
          previous_state := m.current_state, errors := [], warnings := [],
          detail := some det } =
        ((update_state m.current_state d
          { timestamp := now, action := d.action, status := "completed",
            execution_time_seconds := simulate_scaling_time d.action,
            previous_state := m.current_state, errors := [], warnings := [],
            detail := some det }).1, (Except.ok () : Except String Unit)) := by
      rw [← hok]
    rw [hpair] at hfail
    simp at hfail

/-- A scale_up decision whose dict lacks the `reason` key. -/
def dNoReason : Decision := ⟨"scale_up", some 2, some resFix, none⟩

/-- Counterexample to C1: executing a scale_up decision without a `reason`
key fails (with a non-empty error list) only after `_update_state` has
already replaced `instances` — the pre-call state is not preserved. -/
theorem C1_counterexample :
    (execute_scaling_decision okSteps 5 mFix dNoReason).2.status = "failed" ∧
    (execute_scaling_decision okSteps 5 mFix dNoReason).2.errors ≠ [] ∧
    (execute_scaling_decision okSteps 5 mFix dNoReason).1.current_state.instances ≠
      mFix.current_state.instances := by
  norm_num [execute_scaling_decision, scale_up, provision_loop, run_steps, okSteps,
    provisionSteps, update_state, save_state, mFix, stFix, dNoReason, resFix, takeLast,
    List.range_succ, simulate_scaling_time]

/-- A well-formed scale_up decision (all keys present). -/
def dReasoned : Decision := ⟨"scale_up", some 3, some resFix, some "grow"⟩

/-- Witness for the amended C1: a failing provisioning step on a
well-formed decision leaves the state untouched. -/
theorem C1_witness :
    (execute_scaling_decision failStep 5 mFix dReasoned).2.errors ≠ [] ∧
    (execute_scaling_decision failStep 5 mFix dReasoned).1.current_state.instances =
      mFix.current_state.instances ∧
    (execute_scaling_decision failStep 5 mFix dReasoned).1.current_state.resources =
      mFix.current_state.resources ∧
    (execute_scaling_decision failStep 5 mFix dReasoned).1.current_state.scaling_events =
      mFix.current_state.scaling_events :=
  C1_amended_atomic_failure failStep 5 mFix dReasoned (by simp [dReasoned])
    (by norm_num [execute_scaling_decision, scale_up, provision_loop, run_steps, failStep,
      provisionSteps, update_state, save_state, mFix, stFix, dReasoned, resFix,
      List.range_succ, simulate_scaling_time])
theorem cap_events_eq (evs : List ScalingEvent) :
    (if evs.length > 50 then takeLast 50 evs else evs) = takeLast 50 evs := by
  split
  · rfl
  · exact (takeLast_of_length_le _ _ (by omega)).symm

theorem update_state_ok_spec (st : ResourceState) (d : Decision) (res : ExecutionResult)
    (hstat : res.status = "completed")
    (hok : (update_state st d res).2 = .ok ()) :
    ∃ ev, (update_state st d res).1.scaling_events =
        takeLast 50 (st.scaling_events ++ [ev]) ∧
      ev.action = d.action ∧
      ev.instances_before = res.previous_state.instances ∧
      ev.instances_after = (update_state st d res).1.instances := by
  by_cases hact : d.action = "scale_up" ∨ d.action = "scale_down"
  · cases hri : d.recommended_instances with
    | none => exfalso; simp [update_state, hstat, hact, hri] at hok
    | some n =>
      cases hrr : d.recommended_resources with
      | none => exfalso; simp [update_state, hstat, hact, hri, hrr] at hok
      | some r =>
        cases hre : d.reason with
        | none => exfalso; simp [update_state, hstat, hact, hri, hrr, hre] at hok
        | some s =>
          refine ⟨⟨res.timestamp, d.action, res.previous_state.instances, n, s,
            res.execution_time_seconds⟩, ?_, rfl, rfl, ?_⟩
          · simp [update_state, hstat, hact, hri, hrr, hre, cap_events_eq]
            intro h
            exact (takeLast_of_length_le _ _ (by simp; omega)).symm
          · simp [update_state, hstat, hact, hri, hrr, hre]
  · cases hre : d.reason with
    | none => exfalso; simp [update_state, hstat, hact, hre] at hok
    | some s =>
      refine ⟨⟨res.timestamp, d.action, res.previous_state.instances, st.instances, s,
        res.execution_time_seconds⟩, ?_, rfl, rfl, ?_⟩
      · simp [update_state, hstat, hact, hre, cap_events_eq]
        intro h
        exact (takeLast_of_length_le _ _ (by simp; omega)).symm
      · simp [update_state, hstat, hact, hre]

theorem update_state_error_events (st : ResourceState) (d : Decision) (res : ExecutionResult)
    (e : String) (herr : (update_state st d res).2 = .error e) :
    (update_state st d res).1.scaling_events = st.scaling_events := by
  by_cases hstat : res.status = "completed"
  · by_cases hact : d.action = "scale_up" ∨ d.action = "scale_down"
    · cases hri : d.recommended_instances with
      | none => simp [update_state, hstat, hact, hri]
      | some n =>
        cases hrr : d.recommended_resources with
        | none => simp [update_state, hstat, hact, hri, hrr]
        | some r =>
          cases hre : d.reason with
          | none => simp [update_state, hstat, hact, hri, hrr, hre]
          | some s => exfalso; simp [update_state, hstat, hact, hri, hrr, hre] at herr
    · cases hre : d.reason with
      | none => simp [update_state, hstat, hact, hre]
      | some s => exfalso; simp [update_state, hstat, hact, hre] at herr
  · exfalso; simp [update_state, hstat] at herr

theorem update_state_frame_nonscale (st : ResourceState) (d : Decision) (res : ExecutionResult)
    (hact : ¬ (d.action = "scale_up" ∨ d.action = "scale_down")) :
    (update_state st d res).1.instances = st.instances ∧
    (update_state st d res).1.resources = st.resources := by
  by_cases hstat : res.status = "completed"
  · cases hre : d.reason with
    | none => constructor <;> simp [update_state, hstat, hact, hre]
    | some s => constructor <;> simp [update_state, hstat, hact, hre]
  · constructor <;> simp [update_state, hstat]

theorem run_steps_okSteps (ctx : String) (l : List String) :
    run_steps okSteps ctx l = .ok () := by
  induction l with
  | nil => rfl
  | cons s rest ih => simp [run_steps, okSteps, ih]

theorem provision_loop_okSteps (r : Resources) (current : Int) (l : List Nat) :
    ∃ out, provision_loop okSteps (some r) current l = .ok out := by
  induction l with
  | nil => exact ⟨[], rfl⟩
  | cons i rest ih =>
    obtain ⟨out, hout⟩ := ih
    refine ⟨ProvisionedInstance.mk ("instance-" ++ toString (current + (i : Int) + 1))
      r.cpu_per_instance r.memory_per_instance r.storage_per_instance "active" :: out, ?_⟩
    simp [provision_loop, run_steps_okSteps, hout]

def dRepeat : Decision := ⟨"scale_up", some 1, some resFix, some "again"⟩

theorem execute_dRepeat_spec (t : ℚ) (m : ManagerState) :
    (execute_scaling_decision okSteps t m dRepeat).2.status = "completed" ∧
    ∃ ev, (execute_scaling_decision okSteps t m dRepeat).1.current_state.scaling_events =
      takeLast 50 (m.current_state.scaling_events ++ [ev]) := by
  obtain ⟨out, hout⟩ := provision_loop_okSteps resFix m.current_state.instances
    (List.range ((1 : Int) - m.current_state.instances).toNat)
  have hatt : (if dRepeat.action = "scale_up" then scale_up okSteps m.current_state dRepeat
      else if dRepeat.action = "scale_down" then scale_down okSteps m.current_state dRepeat
      else maintain_resources okSteps m.current_state) =
      .ok (.scaleUp (1 - m.current_state.instances) 1 out resFix) := by
    simp [dRepeat, scale_up, hout]
  have hok := update_state_snd_ok m.current_state dRepeat
    { timestamp := t, action := dRepeat.action, status := "completed",
      execution_time_seconds := simulate_scaling_time dRepeat.action,
      previous_state := m.current_state, errors := [], warnings := [],
      detail := some (.scaleUp (1 - m.current_state.instances) 1 out resFix) }
    (by simp [dRepeat]) (fun _ => ⟨by simp [dRepeat], by simp [dRepeat]⟩)
  have hpair : update_state m.current_state dRepeat
      { timestamp := t, action := dRepeat.action, status := "completed",
        execution_time_seconds := simulate_scaling_time dRepeat.action,
        previous_state := m.current_state, errors := [], warnings := [],
        detail := some (.scaleUp (1 - m.current_state.instances) 1 out resFix) } =
      ((update_state m.current_state dRepeat
        { timestamp := t, action := dRepeat.action, status := "completed",
          execution_time_seconds := simulate_scaling_time dRepeat.action,
          previous_state := m.current_state, errors := [], warnings := [],
          detail := some (.scaleUp (1 - m.current_state.instances) 1 out resFix) }).1,
        (Except.ok () : Except String Unit)) := by
    rw [← hok]
  obtain ⟨ev, hev, -, -, -⟩ := update_state_ok_spec m.current_state dRepeat
    { timestamp := t, action := dRepeat.action, status := "completed",
      execution_time_seconds := simulate_scaling_time dRepeat.action,
      previous_state := m.current_state, errors := [], warnings := [],
      detail := some (.scaleUp (1 - m.current_state.instances) 1 out resFix) }
    rfl hok
  constructor
  · simp only [execute_scaling_decision, hatt, save_state]
    rw [hpair]
  · refine ⟨ev, ?_⟩
    simp only [execute_scaling_decision, hatt, save_state]
    rw [hpair]
    exact hev


theorem exec_iter_dRepeat_len : ∀ (n : Nat) (m : ManagerState),
    m.current_state.scaling_events.length ≤ 50 →
    (exec_iter okSteps dRepeat n m).current_state.scaling_events.length =
      min (m.current_state.scaling_events.length + n) 50 := by
  intro n
  induction n with
  | zero => intro m hm; simp [exec_iter]; omega
  | succ n ih =>
    intro m hm
    obtain ⟨hst, ev, hev⟩ := execute_dRepeat_spec ((n : ℚ) + 1) m
    rw [exec_iter, ih _ (by rw [hev, takeLast_length]; omega)]
    rw [hev, takeLast_length, List.length_append]
    simp
    omega

/-- Claim C7: scaling_events retention — starting from at most 50 events,
an execution leaves at most 50; a completed execution's event list is
exactly the last 50 of the old list plus the one appended event
(chronological, oldest dropped first); and after 55 successfully executed
scaling actions from the initial state the list has length exactly 50. -/
theorem C7_event_retention (oracle : StepOracle) (now : ℚ) (m : ManagerState) (d : Decision)
    (hle : m.current_state.scaling_events.length ≤ 50) :
    ((execute_scaling_decision oracle now m d).1.current_state.scaling_events.length ≤ 50) ∧
    ((execute_scaling_decision oracle now m d).2.status = "completed" →
      ∃ ev, (execute_scaling_decision oracle now m d).1.current_state.scaling_events =
        takeLast 50 (m.current_state.scaling_events ++ [ev])) ∧
    (exec_iter okSteps dRepeat 55 mFix).current_state.scaling_events.length = 50 := by
  have hmain : ((execute_scaling_decision oracle now m d).1.current_state.scaling_events.length ≤ 50) ∧
      ((execute_scaling_decision oracle now m d).2.status = "completed" →
        ∃ ev, (execute_scaling_decision oracle now m d).1.current_state.scaling_events =
          takeLast 50 (m.current_state.scaling_events ++ [ev])) := by
    cases hatt : (if d.action = "scale_up" then scale_up oracle m.current_state d
        else if d.action = "scale_down" then scale_down oracle m.current_state d
        else maintain_resources oracle m.current_state) with
    | error e =>
      constructor
      · simp [execute_scaling_decision, hatt, save_state, hle]
      · intro hcomp
        exfalso
        simp [execute_scaling_decision, hatt, save_state] at hcomp
    | ok det =>
      cases hu : (update_state m.current_state d
          { timestamp := now, action := d.action, status := "completed",
            execution_time_seconds := simulate_scaling_time d.action,
            previous_state := m.current_state, errors := [], warnings := [],
            detail := some det }).2 with
      | error e =>
        have hpair : update_state m.current_state d
            { timestamp := now, action := d.action, status := "completed",
              execution_time_seconds := simulate_scaling_time d.action,
              previous_state := m.current_state, errors := [], warnings := [],
              detail := some det } =
            ((update_state m.current_state d
              { timestamp := now, action := d.action, status := "completed",
                execution_time_seconds := simulate_scaling_time d.action,
                previous_state := m.current_state, errors := [], warnings := [],
                detail := some det }).1, (Except.error e : Except String Unit)) := by
          rw [← hu]
        constructor
        · simp only [execute_scaling_decision, hatt, save_state]
          rw [hpair]
          simp only []
          rw [update_state_error_events _ _ _ e hu]
          exact hle
        · intro hcomp
          exfalso
          simp only [execute_scaling_decision, hatt, save_state] at hcomp
          rw [hpair] at hcomp
          simp at hcomp
      | ok u =>
        cases u
        have hpair : update_state m.current_state d
            { timestamp := now, action := d.action, status := "completed",
              execution_time_seconds := simulate_scaling_time d.action,
              previous_state := m.current_state, errors := [], warnings := [],
              detail := some det } =
            ((update_state m.current_state d
              { timestamp := now, action := d.action, status := "completed",
                execution_time_seconds := simulate_scaling_time d.action,
                previous_state := m.current_state, errors := [], warnings := [],
                detail := some det }).1, (Except.ok () : Except String Unit)) := by
          rw [← hu]
        obtain ⟨ev, hev, -, -, -⟩ := update_state_ok_spec m.current_state d
          { timestamp := now, action := d.action, status := "completed",
            execution_time_seconds := simulate_scaling_time d.action,
            previous_state := m.current_state, errors := [], warnings := [],
            detail := some det } rfl hu
        constructor
        · simp only [execute_scaling_decision, hatt, save_state]
          rw [hpair]
          simp only []
          rw [hev, takeLast_length]
          omega
        · intro _
          refine ⟨ev, ?_⟩
          simp only [execute_scaling_decision, hatt, save_state]
          rw [hpair]
          exact hev
  refine ⟨hmain.1, hmain.2, ?_⟩
  rw [exec_iter_dRepeat_len 55 mFix (by simp [mFix, stFix])]
  simp [mFix, stFix]

/-- Witness for C7 at a concrete completed execution. -/
theorem C7_witness :
    ((execute_scaling_decision okSteps 1 mFix dRepeat).1.current_state.scaling_events.length ≤ 50) ∧
    ((execute_scaling_decision okSteps 1 mFix dRepeat).2.status = "completed" →
      ∃ ev, (execute_scaling_decision okSteps 1 mFix dRepeat).1.current_state.scaling_events =
        takeLast 50 (mFix.current_state.scaling_events ++ [ev])) ∧
    (exec_iter okSteps dRepeat 55 mFix).current_state.scaling_events.length = 50 :=
  C7_event_retention okSteps 1 mFix dRepeat (by simp [mFix, stFix])

/-- A well-formed maintain decision. -/
def dMaintFix : Decision := ⟨"maintain", some 1, some resFix, some "steady"⟩

/-- Counterexample to C8: a completed maintain execution appends a scaling
event whose action is "maintain" — not every scaling event records a
scale_up/scale_down transition. -/
theorem C8_counterexample :
    (execute_scaling_decision okSteps 7 mFix dMaintFix).2.status = "completed" ∧
    (execute_scaling_decision okSteps 7 mFix dMaintFix).1.current_state.scaling_events.map
      (·.action) = ["maintain"] := by
  norm_num [execute_scaling_decision, maintain_resources, run_steps, okSteps, maintenanceSteps,
    update_state, save_state, mFix, stFix, dMaintFix, resFix, takeLast, simulate_scaling_time,
    show ("maintain" : String) ≠ "scale_up" from by decide,
    show ("maintain" : String) ≠ "scale_down" from by decide]

/-- Claim C8 (amended): executing a decision with action maintain never
changes the ResourceState's instances or resources; a completed maintain
execution appends exactly one event with action "maintain" and zero
instance-count delta (instances_before = instances_after); a failed one
appends nothing.  Scaling events thus record completed executions of any
action, not only scale_up/scale_down transitions. -/
theorem C8_amended_maintain_frame (oracle : StepOracle) (now : ℚ) (m : ManagerState)
    (d : Decision) (ha : d.action = "maintain") :
    (execute_scaling_decision oracle now m d).1.current_state.instances =
      m.current_state.instances ∧
    (execute_scaling_decision oracle now m d).1.current_state.resources =
      m.current_state.resources ∧
    ((execute_scaling_decision oracle now m d).2.status = "completed" →
      ∃ ev, (execute_scaling_decision oracle now m d).1.current_state.scaling_events =
          takeLast 50 (m.current_state.scaling_events ++ [ev]) ∧
        ev.action = "maintain" ∧ ev.instances_before = ev.instances_after) ∧
    ((execute_scaling_decision oracle now m d).2.status = "failed" →
      (execute_scaling_decision oracle now m d).1.current_state.scaling_events =
        m.current_state.scaling_events) := by
  have hact : ¬ (d.action = "scale_up" ∨ d.action = "scale_down") := by
    rw [ha]
    rintro (h | h) <;> exact absurd h (by decide)
  have hattn : (if d.action = "scale_up" then scale_up oracle m.current_state d
      else if d.action = "scale_down" then scale_down oracle m.current_state d
      else maintain_resources oracle m.current_state) =
      maintain_resources oracle m.current_state := by
    rw [ha, if_neg (by decide), if_neg (by decide)]
  cases hatt2 : maintain_resources oracle m.current_state with
  | error e =>
    refine ⟨?_, ?_, ?_, ?_⟩
    · simp only [execute_scaling_decision, save_state]
      rw [hattn]
      simp only [hatt2]
    · simp only [execute_scaling_decision, save_state]
      rw [hattn]
      simp only [hatt2]
    · intro hcomp
      exfalso
      simp only [execute_scaling_decision, save_state] at hcomp
      rw [hattn] at hcomp
      simp only [hatt2] at hcomp
      simp at hcomp
    · intro _
      simp only [execute_scaling_decision, save_state]
      rw [hattn]
      simp only [hatt2]
  | ok det =>
    cases hu : (update_state m.current_state d
        { timestamp := now, action := d.action, status := "completed",
          execution_time_seconds := simulate_scaling_time d.action,
          previous_state := m.current_state, errors := [], warnings := [],
          detail := some det }).2 with
    | error e =>
      have hpair : update_state m.current_state d
          { timestamp := now, action := d.action, status := "completed",
            execution_time_seconds := simulate_scaling_time d.action,
            previous_state := m.current_state, errors := [], warnings := [],
            detail := some det } =
          ((update_state m.current_state d
            { timestamp := now, action := d.action, status := "completed",
              execution_time_seconds := simulate_scaling_time d.action,
              previous_state := m.current_state, errors := [], warnings := [],
              detail := some det }).1, (Except.error e : Except String Unit)) := by
        rw [← hu]
      have hframe := update_state_frame_nonscale m.current_state d
        { timestamp := now, action := d.action, status := "completed",
          execution_time_seconds := simulate_scaling_time d.action,
          previous_state := m.current_state, errors := [], warnings := [],
          detail := some det } hact
      refine ⟨?_, ?_, ?_, ?_⟩
      · simp only [execute_scaling_decision, save_state]
        rw [hattn]
        simp only [hatt2]
        rw [hpair]
        exact hframe.1
      · simp only [execute_scaling_decision, save_state]
        rw [hattn]
        simp only [hatt2]
        rw [hpair]
        exact hframe.2
      · intro hcomp
        exfalso
        simp only [execute_scaling_decision, save_state] at hcomp
        rw [hattn] at hcomp
        simp only [hatt2] at hcomp
        rw [hpair] at hcomp
        simp at hcomp
      · intro _
        simp only [execute_scaling_decision, save_state]
        rw [hattn]
        simp only [hatt2]
        rw [hpair]
        exact update_state_error_events _ _ _ e hu
    | ok u =>
      cases u
      have hpair : update_state m.current_state d
          { timestamp := now, action := d.action, status := "completed",
            execution_time_seconds := simulate_scaling_time d.action,
            previous_state := m.current_state, errors := [], warnings := [],
            detail := some det } =
          ((update_state m.current_state d
            { timestamp := now, action := d.action, status := "completed",
              execution_time_seconds := simulate_scaling_time d.action,
              previous_state := m.current_state, errors := [], warnings := [],
              detail := some det }).1, (Except.ok () : Except String Unit)) := by
        rw [← hu]
      have hframe := update_state_frame_nonscale m.current_state d
        { timestamp := now, action := d.action, status := "completed",
          execution_time_seconds := simulate_scaling_time d.action,
          previous_state := m.current_state, errors := [], warnings := [],
          detail := some det } hact
      obtain ⟨ev, hev, hevact, hbefore, hafter⟩ := update_state_ok_spec m.current_state d
        { timestamp := now, action := d.action, status := "completed",
          execution_time_seconds := simulate_scaling_time d.action,
          previous_state := m.current_state, errors := [], warnings := [],
          detail := some det } rfl hu
      refine ⟨?_, ?_, ?_, ?_⟩
      · simp only [execute_scaling_decision, save_state]
        rw [hattn]
        simp only [hatt2]
        rw [hpair]
        exact hframe.1
      · simp only [execute_scaling_decision, save_state]
        rw [hattn]
        simp only [hatt2]
        rw [hpair]
        exact hframe.2
      · intro _
        refine ⟨ev, ?_, ?_, ?_⟩
        · simp only [execute_scaling_decision, save_state]
          rw [hattn]
          simp only [hatt2]
          rw [hpair]
          exact hev
        · rw [hevact, ha]
        · rw [hbefore, hafter, hframe.1]
      · intro hf
        exfalso
        simp only [execute_scaling_decision, save_state] at hf
        rw [hattn] at hf
        simp only [hatt2] at hf
        rw [hpair] at hf
        simp at hf

/-- Witness for the amended C8 at a concrete completed maintain execution. -/
theorem C8_witness :
    (execute_scaling_decision okSteps 7 mFix dMaintFix).1.current_state.instances =
      mFix.current_state.instances ∧
    (execute_scaling_decision okSteps 7 mFix dMaintFix).1.current_state.resources =
      mFix.current_state.resources ∧
    ((execute_scaling_decision okSteps 7 mFix dMaintFix).2.status = "completed" →
      ∃ ev, (execute_scaling_decision okSteps 7 mFix dMaintFix).1.current_state.scaling_events =
          takeLast 50 (mFix.current_state.scaling_events ++ [ev]) ∧
        ev.action = "maintain" ∧ ev.instances_before = ev.instances_after) ∧
    ((execute_scaling_decision okSteps 7 mFix dMaintFix).2.status = "failed" →
      (execute_scaling_decision okSteps 7 mFix dMaintFix).1.current_state.scaling_events =
        mFix.current_state.scaling_events) :=
  C8_amended_maintain_frame okSteps 7 mFix dMaintFix rfl

/-- Claim C10 (amended): every call to `execute_scaling_decision`, completed
or failed, rewrites the persisted state file with the final state and sets
`last_updated` to the call's time; for decisions carrying a `reason` entry,
a failed execution changes no ResourceState field other than
`last_updated`.  (Without a `reason` entry, a failure inside
`_update_state` also leaves `instances`/`resources` changed — see the
counterexample.) -/
theorem C10_amended_persistence (oracle : StepOracle) (now : ℚ) (m : ManagerState)
    (d : Decision) :
    (execute_scaling_decision oracle now m d).1.state_file =
      some (execute_scaling_decision oracle now m d).1.current_state ∧
    (execute_scaling_decision oracle now m d).1.current_state.last_updated = now ∧
    (d.reason ≠ none →
      (execute_scaling_decision oracle now m d).2.status = "failed" →
      (execute_scaling_decision oracle now m d).1.current_state =
        { m.current_state with last_updated := now }) := by
  cases hatt : (if d.action = "scale_up" then scale_up oracle m.current_state d
      else if d.action = "scale_down" then scale_down oracle m.current_state d
      else maintain_resources oracle m.current_state) with
  | error e =>
    simp [execute_scaling_decision, hatt, save_state]
  | ok det =>
    have hk := attempt_ok_keys oracle m.current_state d det hatt
    refine ⟨?_, ?_, ?_⟩
    · simp [execute_scaling_decision, hatt, save_state]
    · simp [execute_scaling_decision, hatt, save_state]
    · intro hreason hfail
      exfalso
      have hok := update_state_snd_ok m.current_state d
        { timestamp := now, action := d.action, status := "completed",
          execution_time_seconds := simulate_scaling_time d.action,
          previous_state := m.current_state, errors := [], warnings := [],
          detail := some det } hreason hk
      have hpair : update_state m.current_state d
          { timestamp := now, action := d.action, status := "completed",
            execution_time_seconds := simulate_scaling_time d.action,
            previous_state := m.current_state, errors := [], warnings := [],
            detail := some det } =
          ((update_state m.current_state d
            { timestamp := now, action := d.action, status := "completed",
              execution_time_seconds := simulate_scaling_time d.action,
              previous_state := m.current_state, errors := [], warnings := [],
              detail := some det }).1, (Except.ok () : Except String Unit)) := by
        rw [← hok]
      simp only [execute_scaling_decision, hatt, save_state] at hfail
      rw [hpair] at hfail
      simp at hfail

/-- A manager at 3 instances with no events. -/
def mDown : ManagerState := ⟨⟨3, resFix, "active", 0, []⟩, none, []⟩

/-- A scale_down decision whose dict lacks the `reason` key. -/
def dDownNoReason : Decision := ⟨"scale_down", some 2, some resFix, none⟩

/-- Counterexample to C10: a scale_down decision without a `reason` key
ends failed, yet the instance count has changed — `last_updated` is not the
only ResourceState field that changed on this failed execution. -/
theorem C10_counterexample :
    (execute_scaling_decision okSteps 11 mDown dDownNoReason).2.status = "failed" ∧
    (execute_scaling_decision okSteps 11 mDown dDownNoReason).1.current_state.instances ≠
      mDown.current_state.instances := by
  norm_num [execute_scaling_decision, scale_down, remove_loop, run_steps, okSteps,
    shutdownSteps, update_state, save_state, mDown, dDownNoReason, resFix, takeLast,
    List.range_succ, simulate_scaling_time,
    show ("scale_down" : String) ≠ "scale_up" from by decide]

/-- Witness for the amended C10: a failing step on a well-formed decision
rewrites the file and touches only `last_updated`. -/
theorem C10_witness :
    (execute_scaling_decision failStep 13 mFix dReasoned).1.state_file =
      some (execute_scaling_decision failStep 13 mFix dReasoned).1.current_state ∧
    (execute_scaling_decision failStep 13 mFix dReasoned).1.current_state.last_updated = 13 ∧
    (execute_scaling_decision failStep 13 mFix dReasoned).1.current_state =
      { mFix.current_state with last_updated := 13 } :=
  ⟨(C10_amended_persistence failStep 13 mFix dReasoned).1,
   (C10_amended_persistence failStep 13 mFix dReasoned).2.1,
   (C10_amended_persistence failStep 13 mFix dReasoned).2.2 (by simp [dReasoned])
     (by norm_num [execute_scaling_decision, scale_up, provision_loop, run_steps, failStep,
       provisionSteps, update_state, save_state, mFix, stFix, dReasoned, resFix,
       List.range_succ, simulate_scaling_time])⟩

/-- A completed scale_up event 1 → 3, as the most recent scaling event. -/
def evFix : ScalingEvent := ⟨3, "scale_up", 1, 3, "grow", 2⟩

/-- A manager at 3 instances whose last scaling event grew 1 → 3. -/
def mRollback : ManagerState := ⟨⟨3, resFix, "active", 3, [evFix]⟩, none, []⟩

/-- Claim C3 (code bug): `rollback_last_scaling` targets the last event's
`instances_before` (here 1), and the rollback execution completes, yet the
ResourceState's instance count stays 3 — because `execute_scaling_decision`
dispatches the `rollback` action to `_maintain_resources` and
`_update_state` only replaces `instances` for `scale_up`/`scale_down`, the
prior instance count is never restored. -/
theorem C3_rollback_divergence :
    mRollback.current_state.scaling_events.map (·.instances_before) = [1] ∧
    mRollback.current_state.instances = 3 ∧
    rollbackStatus (rollback_last_scaling okSteps 9 mRollback).2 = some "completed" ∧
    (rollback_last_scaling okSteps 9 mRollback).1.current_state.instances = 3 := by
  norm_num [rollback_last_scaling, execute_scaling_decision, maintain_resources, run_steps,
    okSteps, maintenanceSteps, update_state, save_state, rollbackStatus, mRollback, evFix,
    resFix, takeLast, simulate_scaling_time,
    show ("rollback" : String) ≠ "scale_up" from by decide,
    show ("rollback" : String) ≠ "scale_down" from by decide]
